import Mathlib

/-!
Verification of the pyvinga vSphere monitoring plugin (`pyvinga.py`) and its
Icinga setup companion (`icinga1-setup/vi_setup.py`).

The Python sources are shallowly embedded: floats become rationals (the code
only adds, multiplies and divides, so the embedding is exact on the inputs we
consider), Python dicts become association lists, files become lists of lines,
and fallible code returns `Option`/`Except`.  Severity classification,
threshold resolution, hierarchy classification, hostgroup naming, the counter
cache and the relevant slices of `main` are all translated directly from the
source.
-/

/-! ## Python string primitives

Data-level models of the Python string methods the two scripts use.
`asciiLower` is `str.lower` on the ASCII names these scripts handle,
`pyStartsWith` is `str.startswith`, and `splitDotHead` is `s.split('.')[0]`
(the first segment is everything before the first dot). -/

def asciiLower (c : Char) : Char :=
  if 65 ≤ c.toNat ∧ c.toNat ≤ 90 then Char.ofNat (c.toNat + 32) else c

def pyLower (s : String) : String := ⟨s.data.map asciiLower⟩

def listStartsWith : List Char → List Char → Bool
  | _, [] => true
  | [], _ :: _ => false
  | c :: cs, p :: ps => c = p && listStartsWith cs ps

def pyStartsWith (s pre : String) : Bool := listStartsWith s.data pre.data

def splitDotHead (s : String) : String := ⟨s.data.takeWhile (fun ch => ch ≠ '.')⟩

namespace Pyvinga

/-! ## Severity constants (pyvinga.py lines 22-26) -/

def STATE_OK : Nat := 0
def STATE_WARNING : Nat := 1
def STATE_CRITICAL : Nat := 2
def STATE_UNKNOWN : Nat := 3

/-- The tuple of severity words, line 26 of the source. -/
def state_tuple : List String := ["OK", "WARNING", "CRITICAL", "UNKNOWN"]

/-- The severity word printed for a given state index, `state_tuple[i]`. -/
def stateName (i : Nat) : String := state_tuple.getD i ""

/-! ## print_output_float (lines 367-393)

Each branch prints exactly one line
`SEVERITY - statName is VALUEsuffix extra | 'statName'=VALUEsuffix;...`
and exits.  We record the printed severity word, the numeric fields that the
format string actually renders after the `=` sign, and the argument passed to
`exit`.  In the source the CRITICAL and WARNING branches use a format string
whose placeholders stop at `{5};{6}` (warning;critical), so the `min_value`
and `max_value` arguments are passed to `format` but never rendered; only the
OK branch's format string has `{5};{6};{7};{8}`. -/

structure FloatOutput where
  severityWord : String
  statName : String
  value : ℚ
  suffix : String
  extraOutput : String
  perfFields : List ℚ
  exitCode : Nat
  deriving DecidableEq, Repr

def print_output_float (finalOutput : ℚ) (statName : String) (warnValue critValue : ℚ)
    (suffix : String) (extraOutput : String := "") (min_value : ℚ := 0)
    (max_value : ℚ := 100) : FloatOutput :=
  if finalOutput ≥ critValue then
    { severityWord := stateName STATE_CRITICAL, statName := statName, value := finalOutput
      suffix := suffix, extraOutput := extraOutput
      perfFields := [finalOutput, warnValue, critValue]
      exitCode := STATE_CRITICAL }
  else if finalOutput ≥ warnValue then
    { severityWord := stateName STATE_WARNING, statName := statName, value := finalOutput
      suffix := suffix, extraOutput := extraOutput
      perfFields := [finalOutput, warnValue, critValue]
      exitCode := STATE_WARNING }
  else
    { severityWord := stateName STATE_OK, statName := statName, value := finalOutput
      suffix := suffix, extraOutput := extraOutput
      perfFields := [finalOutput, warnValue, critValue, min_value, max_value]
      exitCode := STATE_OK }

/-! ## print_output_string (lines 396-419)

String-valued checks compare for equality against the critical, warning and
unknown sentinels in that order.  Each branch prints one line with no
performance-data suffix and exits.  Note line 416 of the source: the branch
that prints `state_tuple[STATE_UNKNOWN]` calls `exit(STATE_WARNING)`. -/

structure StringOutput where
  severityWord : String
  statName : String
  value : String
  extraOutput : String
  exitCode : Nat
  deriving DecidableEq, Repr

def print_output_string (finalOutput statName warnValue critValue unkValue : String)
    (extraOutput : String := "") : StringOutput :=
  if finalOutput = critValue then
    { severityWord := stateName STATE_CRITICAL, statName := statName, value := finalOutput
      extraOutput := extraOutput, exitCode := STATE_CRITICAL }
  else if finalOutput = warnValue then
    { severityWord := stateName STATE_WARNING, statName := statName, value := finalOutput
      extraOutput := extraOutput, exitCode := STATE_WARNING }
  else if finalOutput = unkValue then
    { severityWord := stateName STATE_UNKNOWN, statName := statName, value := finalOutput
      extraOutput := extraOutput, exitCode := STATE_WARNING }
  else
    { severityWord := stateName STATE_OK, statName := statName, value := finalOutput
      extraOutput := extraOutput, exitCode := STATE_OK }

/-! ## vm_mem_active (lines 184-198)

`statdata` is the raw summed sample; the normalized value is `statdata / 1024`
and the supplied warning/critical percentages are resolved against the VM's
configured memory size in MB.  `vm_mem_shared` (lines 201-215) and
`vm_mem_balloon` (lines 218-232) differ only in counter name and stat label. -/

def vm_mem_active (statdata : ℚ) (memorySizeMB : ℚ) (warning critical : ℚ) : FloatOutput :=
  print_output_float (statdata / 1024) "Memory Active"
    (warning * memorySizeMB / 100) (critical * memorySizeMB / 100) "MB" "" 0 memorySizeMB

/-! ## ds_space (lines 292-304)

Python raises `ZeroDivisionError` when the divisor is `0.0`, so the embedded
division is `Except`-valued.  `datastore_capacity` is the reported capacity in
bytes scaled to GB; it is zero exactly when the reported capacity is zero. -/

def pyDiv (a b : ℚ) : Except String ℚ :=
  if b = 0 then Except.error "ZeroDivisionError: float division by zero"
  else Except.ok (a / b)

def ds_space (capacity freeSpace : ℚ) (warning critical : ℚ) : Except String FloatOutput :=
  let datastore_capacity : ℚ := capacity / 1024 / 1024 / 1024
  let datastore_free : ℚ := freeSpace / 1024 / 1024 / 1024
  (pyDiv datastore_free datastore_capacity).map (fun ratio =>
    let datastore_used_pct : ℚ := (1 - ratio) * 100
    print_output_float datastore_used_pct "Datastore Used Space" warning critical "%"
      ("(Used " ++ toString (datastore_used_pct * datastore_capacity / 100) ++ " GB of "
        ++ toString datastore_capacity ++ " GB)"))

/-! ## vm_status (lines 73-81) -/

def vm_status (overallStatus powerState : String) : StringOutput :=
  print_output_string overallStatus "Virtual Machine Status" "yellow" "red" "gray"
    ("(State: " ++ powerState ++ ")")

/-! ## The main dispatch (lines 465-596)

`main` either reaches an `exit(code)` call inside one of the handlers (the
process then terminates with that code) or executes a `return` statement.  The
module-level call at lines 595-596 is a bare `main()` whose return value is
discarded, so a `return` from `main` lets the interpreter terminate normally
with process exit status 0. -/

inductive MainOutcome where
  | exited (code : Nat)
  | returned (v : Int)
  deriving DecidableEq, Repr

/-- Process exit status of `python pyvinga.py ...`, given how `main` ended:
an `exit(code)` terminates the process with `code`; a plain `return v` is
discarded by the bare `main()` call at line 596, so the process exits 0. -/
def processExitCode : MainOutcome → Int
  | MainOutcome.exited c => (c : Int)
  | MainOutcome.returned _ => 0

structure VmProp where
  name : String
  powerState : String
  overallStatus : String
  deriving DecidableEq, Repr

/-- The `args.type == 'vm'` branch of `main` (lines 504-541) for the
`status` counter: scan `vmProps`; a powered-on name match dispatches
`vm_status` (line 513), a powered-off/suspended name match also dispatches
`vm_status` (line 538); any other record is skipped.  When the loop finishes
without an `exit`, control falls through to `return 0` (line 592). -/
def mainVmStatus (entity : String) : List VmProp → MainOutcome
  | [] => MainOutcome.returned 0
  | vm :: rest =>
    if vm.name = entity ∧ vm.powerState = "poweredOn" then
      MainOutcome.exited (vm_status vm.overallStatus vm.powerState).exitCode
    else if vm.name = entity ∧
        (vm.powerState = "poweredOff" ∨ vm.powerState = "suspended") then
      MainOutcome.exited (vm_status vm.overallStatus vm.powerState).exitCode
    else mainVmStatus entity rest

/-- Lines 493-495: `SmartConnect` produced no session object, so `main`
prints the connection-failure message and executes `return -1`. -/
structure MainRun where
  printed : List String
  outcome : MainOutcome
  deriving DecidableEq, Repr

def checkMainConnectFail : MainRun :=
  { printed := ["Could not connect to the specified host using specified username and password"]
    outcome := MainOutcome.returned (-1) }

/-! ## Counter catalog cache: write_perf_dictionary (lines 436-462)

The cache file is modelled as its list of written lines (each line is the
character sequence passed to `f.write`, including the terminating newline);
the mtime and the current time are POSIX seconds.  `str(int)` and
`int(str)` are modelled by decimal printing/parsing over `Nat.digits`. -/

/-- The character for decimal digit `d`; the digit characters occupy code
points 48-57. -/
def natDigitChar (d : Nat) : Char := Char.ofNat (48 + d)

/-- Python `str` of a non-negative integer: its decimal digits. -/
def strNat (n : Nat) : List Char :=
  if n = 0 then ['0'] else ((Nat.digits 10 n).map natDigitChar).reverse

/-- Numeric value of a decimal digit character, `none` on anything else. -/
def digitVal (c : Char) : Option Nat :=
  if 48 ≤ c.toNat ∧ c.toNat ≤ 57 then some (c.toNat - 48) else none

def isPySpace (c : Char) : Bool :=
  c = ' ' || c = '\t' || c = '\n' || c = '\r'

/-- Python `int()` ignores surrounding whitespace. -/
def stripSpace (l : List Char) : List Char :=
  ((l.dropWhile isPySpace).reverse.dropWhile isPySpace).reverse

/-- Python `int(s)` on a string of decimal digits (with optional surrounding
whitespace); `none` models the `ValueError` raised on anything else. -/
def pyInt (l : List Char) : Option Nat :=
  let t := stripSpace l
  if t.isEmpty then none
  else t.foldl (fun acc c => acc.bind fun a => (digitVal c).map fun d => 10 * a + d) (some 0)

/-- Python `str.split(',')`: cut at every comma. -/
def splitCommaAux : List Char → List Char → List (List Char)
  | [], cur => [cur.reverse]
  | c :: rest, cur =>
    if c = ',' then cur.reverse :: splitCommaAux rest [] else splitCommaAux rest (c :: cur)

def pySplitComma (l : List Char) : List (List Char) := splitCommaAux l []

/-- Line 454: `f.write(counter_full + ',' + str(perf_dict[counter_full]) + '\n')`. -/
def serializeLine (k : List Char) (v : Nat) : List Char :=
  k ++ [','] ++ strNat v ++ ['\n']

/-- Line 460: `perf_dict[line.split(',')[0]] = int(line.split(',')[1])`;
`none` models the `IndexError`/`ValueError` a malformed line would raise. -/
def parseLine (l : List Char) : Option (List Char × Nat) :=
  match pySplitComma l with
  | k :: v :: _ => (pyInt v).map (fun n => (k, n))
  | _ => none

/-- Lines 457-461: read every cache line into the dictionary in order. -/
def readCache : List (List Char) → Option (List (List Char × Nat))
  | [] => some []
  | l :: rest => (parseLine l).bind (fun kv => (readCache rest).map (fun d => kv :: d))

structure PerfCounter where
  groupKey : List Char
  nameKey : List Char
  rollupType : List Char
  key : Nat
  deriving DecidableEq, Repr

/-- Line 452: `"{}.{}.{}".format(counter.groupInfo.key, counter.nameInfo.key,
counter.rollupType)`. -/
def counter_full (c : PerfCounter) : List Char :=
  c.groupKey ++ ['.'] ++ c.nameKey ++ ['.'] ++ c.rollupType

/-- Lines 451-454: the in-memory dictionary built from the provider's full
counter list, in iteration order. -/
def buildPerfDict (perfList : List PerfCounter) : List (List Char × Nat) :=
  perfList.map (fun c => (counter_full c, c.key))

def serializeDict (d : List (List Char × Nat)) : List (List Char) :=
  d.map (fun kv => serializeLine kv.1 kv.2)

structure CacheFile where
  mtime : Int
  lines : List (List Char)
  deriving DecidableEq, Repr

def sevenDays : Int := 7 * 86400

/-- Lines 446-462: if the cache file is absent, or its mtime is older than
`now` minus 7 days, rebuild the dictionary from the provider's counter list
and persist it; otherwise parse the existing file.  The result pairs the
in-memory dictionary with the cache-file lines after the call. -/
def write_perf_dictionary (now : Int) (file : Option CacheFile)
    (perfList : List PerfCounter) : Option (List (List Char × Nat) × List (List Char)) :=
  match file with
  | none =>
      let d := buildPerfDict perfList
      some (d, serializeDict d)
  | some f =>
      if f.mtime < now - sevenDays then
        let d := buildPerfDict perfList
        some (d, serializeDict d)
      else
        (readCache f.lines).map (fun d => (d, f.lines))

end Pyvinga

namespace ViSetup

/-! ## get_hierarchy host classification (vi_setup.py lines 454-513)

A host property record carries `str(host['parent'])` (the Python repr of the
parent managed-object reference, which begins with a single-quote character),
the parent container's `name`, and `host['parent'].parent.parent.name` (the
datacenter reached by walking two levels above the parent container). -/

/-- The single-quote character that opens the Python repr of a managed-object
reference; the source tests `str(host['parent']).startswith('\x27vim.Compute')`. -/
def sq : Char := Char.ofNat 39

def computeTest : String := ⟨sq :: "vim.Compute".data⟩

def clusterTest : String := ⟨sq :: "vim.Cluster".data⟩

structure HostProp where
  name : String
  parentRepr : String
  parentName : String
  parentDcName : String
  deriving DecidableEq, Repr

/-- A host record after the classification loop.  `clustername = none` models
a record in which the `'clustername'` key was never created; `some none`
models `host['clustername'] = False` (stand-alone); `some (some c)` models
`host['clustername'] = c` (cluster member).  Same for the `'dcname'` key. -/
structure HostClassified where
  name : String
  parentRepr : String
  parentName : String
  parentDcName : String
  clustername : Option (Option String)
  dcname : Option String
  deriving DecidableEq, Repr

def classifyHost (h : HostProp) : HostClassified :=
  if pyStartsWith h.parentRepr computeTest then
    { name := h.name, parentRepr := h.parentRepr, parentName := h.parentName
      parentDcName := h.parentDcName, clustername := some none, dcname := some h.parentDcName }
  else if pyStartsWith h.parentRepr clusterTest then
    { name := h.name, parentRepr := h.parentRepr, parentName := h.parentName
      parentDcName := h.parentDcName, clustername := some (some h.parentName)
      dcname := some h.parentDcName }
  else
    { name := h.name, parentRepr := h.parentRepr, parentName := h.parentName
      parentDcName := h.parentDcName, clustername := none, dcname := none }

/-- The `if x in list: pass else: list.append(x)` dedup idiom
(lines 475-478, 485-486, 490-491). -/
def appendUnique {α : Type} [DecidableEq α] (l : List α) (x : α) : List α :=
  if x ∈ l then l else l ++ [x]

structure HierAccum where
  hosts : List HostClassified
  dc_sahost_list : List (String × String)
  dc_cl_list : List (String × String)
  cl_host_list : List (String × String)
  deriving DecidableEq, Repr

/-- One iteration of the host loop (lines 468-491): a parent repr starting
with `vim.Compute` (after the quote) marks a stand-alone host, one starting
with `vim.Cluster` marks a cluster member; any other parent kind matches
neither branch and the record is left untouched. -/
def hierarchyStep (acc : HierAccum) (h : HostProp) : HierAccum :=
  if pyStartsWith h.parentRepr computeTest then
    { acc with
      hosts := acc.hosts ++ [classifyHost h]
      dc_sahost_list := appendUnique acc.dc_sahost_list (h.name, h.parentDcName) }
  else if pyStartsWith h.parentRepr clusterTest then
    { acc with
      hosts := acc.hosts ++ [classifyHost h]
      dc_cl_list := appendUnique acc.dc_cl_list (h.parentName, h.parentDcName)
      cl_host_list := appendUnique acc.cl_host_list (h.parentName, h.name) }
  else
    { acc with hosts := acc.hosts ++ [classifyHost h] }

def get_hierarchy_hosts (hosts : List HostProp) : HierAccum :=
  hosts.foldl hierarchyStep { hosts := [], dc_sahost_list := [], dc_cl_list := [], cl_host_list := [] }

/-! ## VM hostgroup naming -/

/-- Lines 499-502: the `hostgroup_name` assigned to a VM by `get_hierarchy`,
from its owning host's classification.  `clustername = none` models the
stand-alone case (`host['clustername'] == False`). -/
def vm_hostgroup_name (dcname : String) (clustername : Option String)
    (hostname : String) : String :=
  match clustername with
  | none => pyLower dcname ++ "-" ++ pyLower (splitDotHead hostname) ++ "-vms"
  | some cl => pyLower dcname ++ "-" ++ pyLower cl ++ "-vms"

/-- Line 297 of `create_vcenter_config`: the hostgroup name created for a
stand-alone host's VMs, `str(dc).lower() + '-' +
str(sahost['hostname']).split('.')[0] + '-vms'`. -/
def vc_sahost_vm_hostgroup_name (dc hostname : String) : String :=
  pyLower dc ++ "-" ++ splitDotHead hostname ++ "-vms"

/-- Line 325 of `create_vcenter_config`: the hostgroup name created for a
cluster's VMs, `str(dc).lower() + '-' + str(dc_cl['clustername']).lower() +
'-vms '` (the source literal ends in a space). -/
def vc_cluster_vm_hostgroup_name (dc clustername : String) : String :=
  pyLower dc ++ "-" ++ pyLower clustername ++ "-vms "

/-- The full Python repr of a parent reference that is neither a compute
resource nor a cluster, e.g. a folder: `vim.Folder:group-h4` wrapped in
single quotes. -/
def folderRepr : String := ⟨sq :: ("vim.Folder:group-h4".data ++ [sq])⟩

/-- Repr of a cluster parent: `vim.ClusterComputeResource:domain-c7` wrapped
in single quotes. -/
def clusterRepr : String := ⟨sq :: ("vim.ClusterComputeResource:domain-c7".data ++ [sq])⟩

/-- Repr of a stand-alone compute parent: `vim.ComputeResource:domain-s5`
wrapped in single quotes. -/
def computeRepr : String := ⟨sq :: ("vim.ComputeResource:domain-s5".data ++ [sq])⟩

end ViSetup

/-! # Theorems -/

namespace Pyvinga

/-- Numeric classification in `print_output_float` lands on one of the three
exit codes OK, WARNING, CRITICAL. -/
theorem print_output_float_exit_mem (v : ℚ) (nm : String) (w c : ℚ)
    (sfx ex : String) (mn mx : ℚ) :
    (print_output_float v nm w c sfx ex mn mx).exitCode = STATE_OK ∨
    (print_output_float v nm w c sfx ex mn mx).exitCode = STATE_WARNING ∨
    (print_output_float v nm w c sfx ex mn mx).exitCode = STATE_CRITICAL := by
  unfold print_output_float
  split_ifs <;> simp

/-- Claim C1: for every numeric check with absolute thresholds, given warning
value `w`, critical value `c` and normalized sample `v`, the evaluator
classifies and exits CRITICAL when `v ≥ c`, else WARNING when `v ≥ w`, else
OK; both threshold boundaries are inclusive and critical takes precedence
over warning. -/
theorem absolute_threshold_classification (w c v : ℚ) (nm sfx ex : String) (mn mx : ℚ) :
    (v ≥ c → (print_output_float v nm w c sfx ex mn mx).severityWord = "CRITICAL" ∧
       (print_output_float v nm w c sfx ex mn mx).exitCode = 2) ∧
    (v < c → v ≥ w → (print_output_float v nm w c sfx ex mn mx).severityWord = "WARNING" ∧
       (print_output_float v nm w c sfx ex mn mx).exitCode = 1) ∧
    (v < c → v < w → (print_output_float v nm w c sfx ex mn mx).severityWord = "OK" ∧
       (print_output_float v nm w c sfx ex mn mx).exitCode = 0) := by
  unfold print_output_float
  refine ⟨?_, ?_, ?_⟩
  · intro h
    rw [if_pos h]
    exact ⟨rfl, rfl⟩
  · intro h1 h2
    rw [if_neg (not_le.mpr h1), if_pos h2]
    exact ⟨rfl, rfl⟩
  · intro h1 h2
    rw [if_neg (not_le.mpr h1), if_neg (not_le.mpr h2)]
    exact ⟨rfl, rfl⟩

/-- Witness for C1 at `w = 80`, `c = 90`: samples 95, 90, 85, 70 classify
CRITICAL (boundary and precedence), WARNING and OK respectively. -/
theorem absolute_threshold_classification_witness :
    ((95:ℚ) ≥ 90 ∧
      ((print_output_float 95 "CPU Usage" 80 90 "%" "" 0 100).severityWord = "CRITICAL" ∧
       (print_output_float 95 "CPU Usage" 80 90 "%" "" 0 100).exitCode = 2)) ∧
    ((90:ℚ) ≥ 90 ∧
      ((print_output_float 90 "CPU Usage" 80 90 "%" "" 0 100).severityWord = "CRITICAL" ∧
       (print_output_float 90 "CPU Usage" 80 90 "%" "" 0 100).exitCode = 2)) ∧
    ((85:ℚ) < 90 ∧ (85:ℚ) ≥ 80 ∧
      ((print_output_float 85 "CPU Usage" 80 90 "%" "" 0 100).severityWord = "WARNING" ∧
       (print_output_float 85 "CPU Usage" 80 90 "%" "" 0 100).exitCode = 1)) ∧
    ((70:ℚ) < 90 ∧ (70:ℚ) < 80 ∧
      ((print_output_float 70 "CPU Usage" 80 90 "%" "" 0 100).severityWord = "OK" ∧
       (print_output_float 70 "CPU Usage" 80 90 "%" "" 0 100).exitCode = 0)) :=
  ⟨⟨by norm_num,
    (absolute_threshold_classification 80 90 95 "CPU Usage" "%" "" 0 100).1 (by norm_num)⟩,
   ⟨by norm_num,
    (absolute_threshold_classification 80 90 90 "CPU Usage" "%" "" 0 100).1 (by norm_num)⟩,
   ⟨by norm_num, by norm_num,
    (absolute_threshold_classification 80 90 85 "CPU Usage" "%" "" 0 100).2.1
      (by norm_num) (by norm_num)⟩,
   ⟨by norm_num, by norm_num,
    (absolute_threshold_classification 80 90 70 "CPU Usage" "%" "" 0 100).2.2
      (by norm_num) (by norm_num)⟩⟩

/-- Claim C2: for `mem.active` (and the identically-shaped `mem.shared` /
`mem.balloon`), the supplied warning/critical inputs are percentages of the
VM's configured memory: the effective thresholds are `w × memorySizeMB / 100`
and `c × memorySizeMB / 100` in MB, the normalized value is the raw summed
sample divided by 1024, and the same inclusive two-tier comparison applies;
with `memorySizeMB = 4096`, `w = 80`, `c = 90` the thresholds are 3276.8 and
3686.4, and normalized samples 3500, 3700, 3000 classify WARNING, CRITICAL
and OK. -/
theorem percentage_threshold_classification (statdata mem w c : ℚ) :
    ((statdata / 1024 ≥ c * mem / 100 →
        (vm_mem_active statdata mem w c).severityWord = "CRITICAL" ∧
        (vm_mem_active statdata mem w c).exitCode = 2) ∧
     (statdata / 1024 < c * mem / 100 → statdata / 1024 ≥ w * mem / 100 →
        (vm_mem_active statdata mem w c).severityWord = "WARNING" ∧
        (vm_mem_active statdata mem w c).exitCode = 1) ∧
     (statdata / 1024 < c * mem / 100 → statdata / 1024 < w * mem / 100 →
        (vm_mem_active statdata mem w c).severityWord = "OK" ∧
        (vm_mem_active statdata mem w c).exitCode = 0)) ∧
    ((80:ℚ) * 4096 / 100 = 3276.8 ∧ (90:ℚ) * 4096 / 100 = 3686.4) ∧
    ((vm_mem_active (3500 * 1024) 4096 80 90).severityWord = "WARNING" ∧
     (vm_mem_active (3500 * 1024) 4096 80 90).exitCode = 1) ∧
    ((vm_mem_active (3700 * 1024) 4096 80 90).severityWord = "CRITICAL" ∧
     (vm_mem_active (3700 * 1024) 4096 80 90).exitCode = 2) ∧
    ((vm_mem_active (3000 * 1024) 4096 80 90).severityWord = "OK" ∧
     (vm_mem_active (3000 * 1024) 4096 80 90).exitCode = 0) := by
  refine ⟨⟨?_, ?_, ?_⟩, ⟨by norm_num, by norm_num⟩, ?_, ?_, ?_⟩
  · intro h
    unfold vm_mem_active print_output_float
    rw [if_pos h]
    exact ⟨rfl, rfl⟩
  · intro h1 h2
    unfold vm_mem_active print_output_float
    rw [if_neg (not_le.mpr h1), if_pos h2]
    exact ⟨rfl, rfl⟩
  · intro h1 h2
    unfold vm_mem_active print_output_float
    rw [if_neg (not_le.mpr h1), if_neg (not_le.mpr h2)]
    exact ⟨rfl, rfl⟩
  · unfold vm_mem_active print_output_float
    norm_num
    exact ⟨rfl, rfl⟩
  · unfold vm_mem_active print_output_float
    norm_num
    exact ⟨rfl, rfl⟩
  · unfold vm_mem_active print_output_float
    norm_num
    exact ⟨rfl, rfl⟩

/-- Witness for C2: the percentage thresholds at `memorySizeMB = 4096`,
`w = 80`, `c = 90` place a normalized sample of 3500 in the WARNING band. -/
theorem percentage_threshold_classification_witness :
    ((3500 * 1024 : ℚ) / 1024 < 90 * 4096 / 100 ∧
     (3500 * 1024 : ℚ) / 1024 ≥ 80 * 4096 / 100 ∧
     ((vm_mem_active (3500 * 1024) 4096 80 90).severityWord = "WARNING" ∧
      (vm_mem_active (3500 * 1024) 4096 80 90).exitCode = 1)) ∧
    ((3700 * 1024 : ℚ) / 1024 ≥ 90 * 4096 / 100 ∧
     ((vm_mem_active (3700 * 1024) 4096 80 90).severityWord = "CRITICAL" ∧
      (vm_mem_active (3700 * 1024) 4096 80 90).exitCode = 2)) :=
  ⟨⟨by norm_num, by norm_num,
    (percentage_threshold_classification (3500 * 1024) 4096 80 90).1.2.1
      (by norm_num) (by norm_num)⟩,
   ⟨by norm_num,
    (percentage_threshold_classification (3700 * 1024) 4096 80 90).1.1 (by norm_num)⟩⟩

/-- Claim C3: status/string checks compare the status string by exact match
against the sentinels; the critical sentinel gives CRITICAL/exit 2, the
warning sentinel WARNING/exit 1 and other strings OK/exit 0, but the unknown
sentinel branch prints UNKNOWN while calling `exit(STATE_WARNING)` (source
line 416), so the exit code is 1, not the UNKNOWN ordinal 3. -/
theorem status_sentinel_exit_codes :
    ((vm_status "red" "poweredOn").severityWord = "CRITICAL" ∧
     (vm_status "red" "poweredOn").exitCode = 2) ∧
    ((vm_status "yellow" "poweredOn").severityWord = "WARNING" ∧
     (vm_status "yellow" "poweredOn").exitCode = 1) ∧
    ((vm_status "green" "poweredOn").severityWord = "OK" ∧
     (vm_status "green" "poweredOn").exitCode = 0) ∧
    ((vm_status "gray" "poweredOn").severityWord = "UNKNOWN" ∧
     (vm_status "gray" "poweredOn").exitCode = STATE_WARNING ∧
     (vm_status "gray" "poweredOn").exitCode ≠ 3) := by
  decide

/-- Claim C8: the CRITICAL and WARNING branches of `print_output_float` use a
format string whose performance-data section renders only `value;warn;crit`
(the `min_value`/`max_value` arguments are passed to `format` but have no
placeholder, lines 380-388); only the OK branch renders all five fields. -/
theorem perf_data_fields_by_branch :
    (print_output_float 70 "CPU Usage" 80 90 "%" "" 0 100).perfFields =
      [70, 80, 90, 0, 100] ∧
    (print_output_float 85 "CPU Usage" 80 90 "%" "" 0 100).perfFields = [85, 80, 90] ∧
    (print_output_float 95 "CPU Usage" 80 90 "%" "" 0 100).perfFields = [95, 80, 90] ∧
    (print_output_float 85 "CPU Usage" 80 90 "%" "" 0 100).perfFields.length ≠ 5 := by
  unfold print_output_float
  norm_num

/-- Claim C9: when no session object is obtained, `main` prints the failure
message and executes `return -1` (lines 493-495); the module-level call at
line 596 discards that return value, so the process exit status is 0,
not -1. -/
theorem connect_failure_process_exit :
    checkMainConnectFail.outcome = MainOutcome.returned (-1) ∧
    processExitCode checkMainConnectFail.outcome = 0 ∧
    processExitCode checkMainConnectFail.outcome ≠ -1 ∧
    checkMainConnectFail.printed =
      ["Could not connect to the specified host using specified username and password"] := by
  refine ⟨rfl, rfl, by decide, rfl⟩

/-- Claim C7: when no VM record has the requested name, the `args.type ==
'vm'` loop matches nothing, `main` falls through to `return 0` (line 592)
and the discarded return makes the process exit 0 — not UNKNOWN/3. -/
theorem entity_not_found_falls_through (entity : String) (vms : List VmProp)
    (h : ∀ vm ∈ vms, vm.name ≠ entity) :
    mainVmStatus entity vms = MainOutcome.returned 0 ∧
    processExitCode (mainVmStatus entity vms) = 0 ∧
    processExitCode (mainVmStatus entity vms) ≠ 3 := by
  have key : mainVmStatus entity vms = MainOutcome.returned 0 := by
    induction vms with
    | nil => rfl
    | cons vm rest ih =>
      have hne : vm.name ≠ entity := h vm (by simp)
      unfold mainVmStatus
      rw [if_neg, if_neg]
      · exact ih (fun v hv => h v (by simp [hv]))
      · rintro ⟨h1, _⟩
        exact hne h1
      · rintro ⟨h1, _⟩
        exact hne h1
  refine ⟨key, by rw [key]; rfl, by rw [key]; decide⟩

/-- Witness for C7: an inventory holding `db01` and `app01` but not the
requested `web01`. -/
theorem entity_not_found_falls_through_witness :
    (∀ vm ∈ [VmProp.mk "db01" "poweredOn" "green", VmProp.mk "app01" "poweredOff" "green"],
       vm.name ≠ "web01") ∧
    mainVmStatus "web01"
      [VmProp.mk "db01" "poweredOn" "green", VmProp.mk "app01" "poweredOff" "green"] =
      MainOutcome.returned 0 ∧
    processExitCode (mainVmStatus "web01"
      [VmProp.mk "db01" "poweredOn" "green", VmProp.mk "app01" "poweredOff" "green"]) = 0 :=
  ⟨by decide,
   (entity_not_found_falls_through "web01"
     [VmProp.mk "db01" "poweredOn" "green", VmProp.mk "app01" "poweredOff" "green"]
     (by decide)).1,
   (entity_not_found_falls_through "web01"
     [VmProp.mk "db01" "poweredOn" "green", VmProp.mk "app01" "poweredOff" "green"]
     (by decide)).2.1⟩

/-- Claim C10: `ds_space` divides by the scaled reported capacity with no
guard; a zero capacity makes the evaluation fail with a division error
instead of producing a severity, and any nonzero capacity yields a
classified output. -/
theorem ds_space_unguarded_division (capacity freeSpace w c : ℚ) :
    (capacity = 0 →
       ds_space capacity freeSpace w c =
         Except.error "ZeroDivisionError: float division by zero") ∧
    (capacity ≠ 0 → ∃ out : FloatOutput,
       ds_space capacity freeSpace w c = Except.ok out ∧
       (out.exitCode = STATE_OK ∨ out.exitCode = STATE_WARNING ∨
        out.exitCode = STATE_CRITICAL)) := by
  constructor
  · intro h
    subst h
    unfold ds_space pyDiv
    norm_num
    rfl
  · intro h
    have hc : ¬ (capacity / 1024 / 1024 / 1024 = 0) := by
      intro h0
      apply h
      field_simp at h0
      exact h0
    simp only [ds_space, pyDiv]
    rw [if_neg hc]
    exact ⟨_, rfl, print_output_float_exit_mem _ _ _ _ _ _ _ _⟩

/-- Witness for C10: a datastore that reports zero capacity errors out, while
a 1000 GiB datastore with 150 GiB free evaluates to a severity. -/
theorem ds_space_unguarded_division_witness :
    (ds_space 0 0 75 85 = Except.error "ZeroDivisionError: float division by zero") ∧
    (∃ out : FloatOutput,
       ds_space (1000 * 1024 * 1024 * 1024) (150 * 1024 * 1024 * 1024) 75 85 =
         Except.ok out ∧
       (out.exitCode = STATE_OK ∨ out.exitCode = STATE_WARNING ∨
        out.exitCode = STATE_CRITICAL)) :=
  ⟨(ds_space_unguarded_division 0 0 75 85).1 rfl,
   (ds_space_unguarded_division (1000 * 1024 * 1024 * 1024) (150 * 1024 * 1024 * 1024)
     75 85).2 (by norm_num)⟩

/-! ### Cache round-trip lemmas -/

theorem splitCommaAux_no_comma (l : List Char) (cur : List Char) (h : ',' ∉ l) :
    splitCommaAux l cur = [cur.reverse ++ l] := by
  induction l generalizing cur with
  | nil => simp [splitCommaAux]
  | cons c rest ih =>
    have hc : ¬ (c = ',') := fun hh => h (hh ▸ List.mem_cons_self c rest)
    have hr : ',' ∉ rest := fun hh => h (List.mem_cons_of_mem _ hh)
    simp only [splitCommaAux]
    rw [if_neg hc, ih _ hr]
    simp

theorem splitCommaAux_append (k r : List Char) (hk : ',' ∉ k) (cur : List Char) :
    splitCommaAux (k ++ ',' :: r) cur = (cur.reverse ++ k) :: splitCommaAux r [] := by
  induction k generalizing cur with
  | nil => simp [splitCommaAux]
  | cons c k2 ih =>
    have hc : ¬ (c = ',') := fun hh => hk (hh ▸ List.mem_cons_self c k2)
    have hk2 : ',' ∉ k2 := fun hh => hk (List.mem_cons_of_mem _ hh)
    simp only [List.cons_append, splitCommaAux, List.append_eq]
    rw [if_neg hc, ih hk2]
    simp

theorem digitVal_natDigitChar {d : Nat} (h : d < 10) :
    digitVal (natDigitChar d) = some d := by
  interval_cases d <;> rfl

theorem natDigitChar_not_comma {d : Nat} (h : d < 10) : natDigitChar d ≠ ',' := by
  interval_cases d <;> decide

theorem natDigitChar_not_space {d : Nat} (h : d < 10) :
    isPySpace (natDigitChar d) = false := by
  interval_cases d <;> decide

theorem strNat_chars (n : Nat) : ∀ ch ∈ strNat n, ∃ d, d < 10 ∧ ch = natDigitChar d := by
  intro ch hch
  unfold strNat at hch
  by_cases h : n = 0
  · rw [if_pos h] at hch
    simp at hch
    exact ⟨0, by norm_num, by rw [hch]; rfl⟩
  · rw [if_neg h] at hch
    rw [List.mem_reverse] at hch
    obtain ⟨d, hd, rfl⟩ := List.mem_map.mp hch
    exact ⟨d, Nat.digits_lt_base (by norm_num) hd, rfl⟩

theorem strNat_no_comma (n : Nat) : ',' ∉ strNat n := by
  intro h
  obtain ⟨d, hd, hc⟩ := strNat_chars n ',' h
  exact natDigitChar_not_comma hd hc.symm

theorem strNat_no_space (n : Nat) : ∀ ch ∈ strNat n, isPySpace ch = false := by
  intro ch hch
  obtain ⟨d, hd, rfl⟩ := strNat_chars n ch hch
  exact natDigitChar_not_space hd

theorem strNat_ne_nil (n : Nat) : strNat n ≠ [] := by
  unfold strNat
  by_cases h : n = 0
  · rw [if_pos h]
    simp
  · rw [if_neg h]
    simp [Nat.digits_ne_nil_iff_ne_zero, h]

theorem stripSpace_strNat (n : Nat) : stripSpace (strNat n ++ ['\n']) = strNat n := by
  unfold stripSpace
  have h1 : (strNat n ++ ['\n']).dropWhile isPySpace = strNat n ++ ['\n'] := by
    cases hsn : strNat n with
    | nil => exact absurd hsn (strNat_ne_nil n)
    | cons a l =>
      have ha : isPySpace a = false :=
        strNat_no_space n a (hsn ▸ List.mem_cons_self a l)
      simp [List.dropWhile_cons, ha]
  rw [h1, List.reverse_append]
  have h2 : List.dropWhile isPySpace (['\n'].reverse ++ (strNat n).reverse)
      = (strNat n).reverse := by
    simp only [List.reverse_cons, List.reverse_nil, List.nil_append, List.singleton_append]
    rw [List.dropWhile_cons]
    simp only [show isPySpace '\n' = true from rfl, if_true]
    cases hr : (strNat n).reverse with
    | nil => rfl
    | cons a l =>
      have ha : a ∈ strNat n := by
        rw [← List.mem_reverse, hr]
        exact List.mem_cons_self a l
      simp [List.dropWhile_cons, strNat_no_space n a ha]
  rw [h2, List.reverse_reverse]

theorem foldl_digit_bind (t : List Char)
    (hv : ∀ ch ∈ t, ∃ d, d < 10 ∧ ch = natDigitChar d) :
    ∀ a0 : Nat,
      t.foldl (fun acc ch => acc.bind fun a => (digitVal ch).map fun d => 10 * a + d)
          (some a0)
        = some (t.foldl (fun a ch => 10 * a + (digitVal ch).getD 0) a0) := by
  induction t with
  | nil => intro a0; rfl
  | cons ch t2 ih =>
    intro a0
    obtain ⟨d, hd, rfl⟩ := hv _ (List.mem_cons_self ch t2)
    rw [List.foldl_cons, List.foldl_cons]
    rw [digitVal_natDigitChar hd]
    simp only [Option.some_bind, Option.map_some, Option.getD_some]
    exact ih (fun c hc => hv c (List.mem_cons_of_mem _ hc)) (10 * a0 + d)

theorem foldl_digit_chars (le : List Nat) (hle : ∀ d ∈ le, d < 10) :
    ∀ acc : Nat,
      ((le.map natDigitChar).reverse).foldl (fun a ch => 10 * a + (digitVal ch).getD 0) acc
        = acc * 10 ^ le.length + Nat.ofDigits 10 le := by
  induction le with
  | nil => intro acc; simp
  | cons d le2 ih =>
    intro acc
    simp only [List.map_cons, List.reverse_cons, List.foldl_append, List.foldl_cons,
      List.foldl_nil]
    rw [ih (fun x hx => hle x (List.mem_cons_of_mem _ hx)) acc]
    rw [digitVal_natDigitChar (hle d (List.mem_cons_self d le2))]
    simp only [Option.getD_some, Nat.ofDigits_cons, List.length_cons]
    ring

theorem pyInt_strNat (n : Nat) : pyInt (strNat n ++ ['\n']) = some n := by
  simp only [pyInt]
  rw [stripSpace_strNat]
  have hne : (strNat n).isEmpty = false := by
    cases h : strNat n with
    | nil => exact absurd h (strNat_ne_nil n)
    | cons a l => rfl
  simp only [hne, Bool.false_eq_true, if_false]
  rw [foldl_digit_bind (strNat n) (strNat_chars n) 0]
  congr 1
  by_cases h : n = 0
  · subst h
    rfl
  · unfold strNat
    rw [if_neg h]
    rw [foldl_digit_chars (Nat.digits 10 n)
      (fun d hd => Nat.digits_lt_base (by norm_num) hd) 0]
    simp [Nat.ofDigits_digits]

theorem parseLine_serializeLine (k : List Char) (v : Nat) (hk : ',' ∉ k) :
    parseLine (serializeLine k v) = some (k, v) := by
  have hnc : ',' ∉ strNat v ++ ['\n'] := by
    intro hmem
    rcases List.mem_append.mp hmem with h1 | h1
    · exact strNat_no_comma v h1
    · simp at h1
  have hshape : serializeLine k v = k ++ ',' :: (strNat v ++ ['\n']) := by
    simp [serializeLine]
  rw [hshape]
  simp only [parseLine, pySplitComma]
  rw [splitCommaAux_append _ _ hk, splitCommaAux_no_comma _ _ hnc]
  simp [pyInt_strNat]

theorem readCache_serializeDict (entries : List (List Char × Nat))
    (h : ∀ kv ∈ entries, ',' ∉ kv.1) :
    readCache (serializeDict entries) = some entries := by
  induction entries with
  | nil => rfl
  | cons kv rest ih =>
    simp only [serializeDict, List.map_cons, readCache]
    rw [parseLine_serializeLine kv.1 kv.2 (h kv (List.mem_cons_self kv rest))]
    have ih2 : readCache (serializeDict rest) = some rest :=
      ih (fun x hx => h x (List.mem_cons_of_mem _ hx))
    simp only [serializeDict] at ih2
    rw [ih2]
    rfl

/-- Claim C6: if the catalog builds a map from the provider counter list and
persists it, a later load that finds the file present and at most 7 days old
parses the file back into the identical map without consulting the provider
(the provider list at reload time is irrelevant); if the file is absent or
older than 7 days, the map is rebuilt from the provider counter list with
keys of the form `group.name.rollup`. -/
theorem counter_cache_round_trip (nowT later mtime : Int)
    (perfList perfList2 : List PerfCounter)
    (hkeys : ∀ pc ∈ perfList, ',' ∉ counter_full pc)
    (hfresh : ¬ (mtime < later - sevenDays)) :
    write_perf_dictionary nowT none perfList =
      some (buildPerfDict perfList, serializeDict (buildPerfDict perfList)) ∧
    buildPerfDict perfList =
      perfList.map (fun pc =>
        (pc.groupKey ++ ['.'] ++ pc.nameKey ++ ['.'] ++ pc.rollupType, pc.key)) ∧
    write_perf_dictionary later
        (some { mtime := mtime, lines := serializeDict (buildPerfDict perfList) })
        perfList2 =
      some (buildPerfDict perfList, serializeDict (buildPerfDict perfList)) ∧
    (∀ (mt : Int) (lines : List (List Char)), mt < later - sevenDays →
       write_perf_dictionary later (some { mtime := mt, lines := lines }) perfList =
         some (buildPerfDict perfList, serializeDict (buildPerfDict perfList))) := by
  refine ⟨rfl, rfl, ?_, ?_⟩
  · have hk2 : ∀ kv ∈ buildPerfDict perfList, ',' ∉ kv.1 := by
      intro kv hkv
      obtain ⟨pc, hpc, rfl⟩ := List.mem_map.mp hkv
      exact hkeys pc hpc
    simp only [write_perf_dictionary]
    rw [if_neg hfresh, readCache_serializeDict _ hk2]
    rfl
  · intro mt lines hmt
    simp only [write_perf_dictionary]
    rw [if_pos hmt]

/-- Witness for C6 at a concrete two-counter catalog: written at time
1000000 and reloaded one day later, the cache parses back to the same map. -/
theorem counter_cache_round_trip_witness :
    (∀ pc ∈ [PerfCounter.mk "cpu".data "ready".data "summation".data 12,
             PerfCounter.mk "mem".data "active".data "average".data 17],
       ',' ∉ counter_full pc) ∧
    ¬ ((1000000 : Int) < 1000000 + 86400 - sevenDays) ∧
    write_perf_dictionary (1000000 + 86400)
        (some { mtime := 1000000
                lines := serializeDict (buildPerfDict
                  [PerfCounter.mk "cpu".data "ready".data "summation".data 12,
                   PerfCounter.mk "mem".data "active".data "average".data 17]) })
        [] =
      some (buildPerfDict
              [PerfCounter.mk "cpu".data "ready".data "summation".data 12,
               PerfCounter.mk "mem".data "active".data "average".data 17],
            serializeDict (buildPerfDict
              [PerfCounter.mk "cpu".data "ready".data "summation".data 12,
               PerfCounter.mk "mem".data "active".data "average".data 17])) :=
  ⟨by decide, by decide,
   (counter_cache_round_trip 1000000 (1000000 + 86400) 1000000
     [PerfCounter.mk "cpu".data "ready".data "summation".data 12,
      PerfCounter.mk "mem".data "active".data "average".data 17]
     [] (by decide) (by decide)).2.2.1⟩

end Pyvinga

namespace ViSetup

/-- Counterexample for C4: a host whose parent repr names a folder (neither
compute-resource nor cluster-compute-resource) flows through the host loop
with no error: it receives no `clustername`/`dcname` assignment and joins
none of the three derived lists — the resolver does not reject it. -/
theorem unknown_parent_kind_not_rejected :
    get_hierarchy_hosts [HostProp.mk "esx9.lab.local" folderRepr "host-folder" "DC1"] =
      { hosts := [{ name := "esx9.lab.local", parentRepr := folderRepr,
                    parentName := "host-folder", parentDcName := "DC1",
                    clustername := none, dcname := none }],
        dc_sahost_list := [], dc_cl_list := [], cl_host_list := [] } := by
  decide

/-- Claim C4 as amended: a host whose parent kind string names neither
container type is silently skipped by the classification loop — its record
gets no cluster or datacenter assignment, it is added to none of the three
derived lists, and the loop completes normally rather than treating the
record as an explicit unknown-parent error. -/
theorem unknown_parent_kind_silently_skipped (acc : HierAccum) (h : HostProp)
    (h1 : pyStartsWith h.parentRepr computeTest = false)
    (h2 : pyStartsWith h.parentRepr clusterTest = false) :
    hierarchyStep acc h = { acc with hosts := acc.hosts ++ [classifyHost h] } ∧
    (classifyHost h).clustername = none ∧
    (classifyHost h).dcname = none ∧
    (hierarchyStep acc h).dc_sahost_list = acc.dc_sahost_list ∧
    (hierarchyStep acc h).dc_cl_list = acc.dc_cl_list ∧
    (hierarchyStep acc h).cl_host_list = acc.cl_host_list := by
  unfold hierarchyStep classifyHost
  simp [h1, h2]

/-- Witness for the amended C4 at a concrete folder-parented host and an
empty accumulator. -/
theorem unknown_parent_kind_silently_skipped_witness :
    (pyStartsWith folderRepr computeTest = false ∧
     pyStartsWith folderRepr clusterTest = false) ∧
    (classifyHost (HostProp.mk "esx9.lab.local" folderRepr "host-folder" "DC1")).clustername
      = none ∧
    (hierarchyStep (HierAccum.mk [] [] [] [])
      (HostProp.mk "esx9.lab.local" folderRepr "host-folder" "DC1")).dc_sahost_list = [] :=
  ⟨⟨by decide, by decide⟩,
   (unknown_parent_kind_silently_skipped (HierAccum.mk [] [] [] [])
     (HostProp.mk "esx9.lab.local" folderRepr "host-folder" "DC1")
     (by decide) (by decide)).2.1,
   (unknown_parent_kind_silently_skipped (HierAccum.mk [] [] [] [])
     (HostProp.mk "esx9.lab.local" folderRepr "host-folder" "DC1")
     (by decide) (by decide)).2.2.2.1⟩

/-- Claim C5: `get_hierarchy` derives a VM group name of the form
`lower(dc) + "-" + lower(cluster or short host name) + "-vms"`, but the
hostgroup names `create_vcenter_config` emits differ: the cluster VM
hostgroup literal ends in a trailing space (line 325) and the stand-alone
hostgroup does not lower-case the host part (line 297), so the VM placement
group and the emitted hostgroup key disagree. -/
theorem hostgroup_name_mismatch :
    vm_hostgroup_name "DC1" (some "Cluster1") "esx1.lab.local" = "dc1-cluster1-vms" ∧
    vc_cluster_vm_hostgroup_name "DC1" "Cluster1" = "dc1-cluster1-vms " ∧
    vm_hostgroup_name "DC1" (some "Cluster1") "esx1.lab.local" ≠
      vc_cluster_vm_hostgroup_name "DC1" "Cluster1" ∧
    vm_hostgroup_name "DC1" none "EsxHost1.lab.local" = "dc1-esxhost1-vms" ∧
    vc_sahost_vm_hostgroup_name "DC1" "EsxHost1.lab.local" = "dc1-EsxHost1-vms" ∧
    vm_hostgroup_name "DC1" none "EsxHost1.lab.local" ≠
      vc_sahost_vm_hostgroup_name "DC1" "EsxHost1.lab.local" := by
  decide

end ViSetup
